import Mathlib

/-!
# Theme toggle app: the mode, preference and voice-command core of `src/App.js`

A shallow embedding of the stateful part of the `App` component, of its
transition and pulse effects, and of the effect of `src/components/Snowfall.js`.

* React state variables (`isNightMode`, `isLoading`, `isListening`,
  `recognizedText`, `feedbackMessage`) and the `recording` ref are fields of
  `AppState`; the collaborators the component talks to (AsyncStorage, Speech,
  console, the timer queue, the Audio.Recording constructor) are fields too, so
  that every effect of a handler is visible in the resulting state.
* A handler of a function component reads the state variables of the render
  that created it.  That snapshot is the `Render` argument of every handler; a
  press handler runs with the snapshot of the current state, a `setTimeout`
  callback keeps the snapshot of the render that armed it.
* Outcomes decided outside the component (does the storage call reject, does
  the recording start, which phrase does `Math.random` pick, what does
  `String.prototype.toLowerCase` return) are arguments.
-/

namespace ThemeToggle

/-! ## Strings -/

/-- Does the character list start with the given pattern. -/
def startsWith : List Char → List Char → Bool
  | _, [] => true
  | [], _ :: _ => false
  | c :: cs, p :: ps => c == p && startsWith cs ps

/-- Substring test on character lists: the pattern occurs at some position. -/
def includesChars : List Char → List Char → Bool
  | [], pat => startsWith [] pat
  | c :: cs, pat => startsWith (c :: cs) pat || includesChars cs pat

/-- The method `String.prototype.includes`: `s.includes(pat)`. -/
def includes (s pat : String) : Bool :=
  includesChars s.data pat.data

/-- Lower-casing of the ASCII letters `A` to `Z`, every other character kept.
On ASCII text this is what `toLowerCase` returns; it is used for the concrete
examples only, the general statements take the lower-casing function as an
argument. -/
def asciiLower (s : String) : String :=
  ⟨s.data.map Char.toLower⟩

/-- The method `Boolean.prototype.toString`. -/
def booleanToString (b : Bool) : String :=
  if b then "true" else "false"

/-! ## Preference store (AsyncStorage) -/

/-- Local storage key constant. -/
def NIGHT_MODE_STORAGE_KEY : String := "NIGHT_MODE_ENABLED"

/-- The call `AsyncStorage.getItem(key)` when it resolves: the value stored under the
key, `none` for an absent key. -/
def getItem (key : String) : List (String × String) → Option String
  | [] => none
  | (k, v) :: rest => if k = key then some v else getItem key rest

/-- The call `AsyncStorage.setItem(key, value)` when it resolves: the value replaces
whatever was stored under the key. -/
def setItem (key value : String) (store : List (String × String)) :
    List (String × String) :=
  (key, value) :: store.filter (fun kv => kv.1 ≠ key)

/-! ## State -/

/-- The state variables a handler closes over: their values in the render
that created the handler. -/
structure Render where
  isNightMode : Bool
  isListening : Bool
  deriving DecidableEq

/-- The callbacks the component hands to `setTimeout`, each with the render
snapshot of the closure. -/
inductive Callback where
  /-- From `provideFeedback`: `setFeedbackMessage('')`. -/
  | clearFeedback
  /-- From `startListening`: `if (isListening) stopListening()`. -/
  | ceiling (r : Render)
  /-- From `simulateSpeechRecognition(audioUri)`. -/
  | recognize (r : Render) (audioUri : String)
  deriving DecidableEq

/-- A pending `setTimeout`: the time it is due and its callback. -/
structure Timer where
  due : Nat
  callback : Callback
  deriving DecidableEq

/-- One line written to the console. -/
inductive ConsoleLine where
  | log (text : String)
  | error (text : String)
  deriving DecidableEq

/-- The component state together with the collaborators it acts on. -/
structure AppState where
  /-- State `useState(false)`: the theme mode, `true` for NIGHT. -/
  isNightMode : Bool
  /-- State `useState(true)`: the first render is blocked while this is set. -/
  isLoading : Bool
  /-- State `useState(false)`: the RECORDING status. -/
  isListening : Bool
  recognizedText : String
  feedbackMessage : String
  /-- The ref `recording.current`: the Audio.Recording object held, by its number. -/
  recording : Option Nat
  /-- How many Audio.Recording objects have been constructed. -/
  created : Nat
  /-- Contents of AsyncStorage. -/
  storage : List (String × String)
  /-- Every `AsyncStorage.setItem(key, value)` call made, newest first. -/
  setItemCalls : List (String × String)
  /-- Every text passed to `Speech.speak`, newest first. -/
  spoken : List String
  /-- Console output, newest first. -/
  console : List ConsoleLine
  /-- Pending `setTimeout` callbacks, in the order they were armed. -/
  timers : List Timer
  /-- Current time in milliseconds. -/
  now : Nat
  /-- How many times the transition effect keyed on `[isNightMode]` has run. -/
  transitionRuns : Nat
  deriving DecidableEq

/-- The snapshot a handler created by the current render closes over. -/
def render (s : AppState) : Render :=
  { isNightMode := s.isNightMode, isListening := s.isListening }

/-- The component when it mounts, over the given storage contents.  The
transition effect has run once (every effect runs after the first render). -/
def initialState (storage : List (String × String)) : AppState :=
  { isNightMode := false
    isLoading := true
    isListening := false
    recognizedText := ""
    feedbackMessage := ""
    recording := none
    created := 0
    storage := storage
    setItemCalls := []
    spoken := []
    console := []
    timers := []
    now := 0
    transitionRuns := 1 }

/-! ## State setters and collaborators -/

/-- The setter `setIsNightMode(value)`.  The transition effect has
`[isNightMode]` as its dependency list, so the render that follows runs it
again exactly when the value differs from the one rendered before. -/
def setIsNightMode (value : Bool) (s : AppState) : AppState :=
  { s with
    isNightMode := value
    transitionRuns :=
      if value = s.isNightMode then s.transitionRuns else s.transitionRuns + 1 }

def setIsLoading (value : Bool) (s : AppState) : AppState :=
  { s with isLoading := value }

def setIsListening (value : Bool) (s : AppState) : AppState :=
  { s with isListening := value }

def setRecognizedText (value : String) (s : AppState) : AppState :=
  { s with recognizedText := value }

def setFeedbackMessage (value : String) (s : AppState) : AppState :=
  { s with feedbackMessage := value }

/-- The call `console.log(text, ...)`. -/
def consoleLog (text : String) (s : AppState) : AppState :=
  { s with console := ConsoleLine.log text :: s.console }

/-- The call `console.error(text, ...)`. -/
def consoleError (text : String) (s : AppState) : AppState :=
  { s with console := ConsoleLine.error text :: s.console }

/-- The call `setTimeout(callback, delay)`. -/
def setTimeout (callback : Callback) (delay : Nat) (s : AppState) : AppState :=
  { s with timers := s.timers ++ [{ due := s.now + delay, callback := callback }] }

/-- The call `Speech.speak(message, ...)`. -/
def speak (message : String) (s : AppState) : AppState :=
  { s with spoken := message :: s.spoken }

/-! ## Handlers -/

/-- Function `loadNightModeSettings`; `readOk` tells whether `AsyncStorage.getItem`
resolves (`true`) or rejects (`false`). -/
def loadNightModeSettings (readOk : Bool) (s : AppState) : AppState :=
  if readOk then
    let storedValue := getItem NIGHT_MODE_STORAGE_KEY s.storage
    setIsLoading false (setIsNightMode (storedValue == some "true") s)
  else
    setIsLoading false
      (setIsNightMode false (consoleError "Error loading night mode setting:" s))

/-- Function `saveNightModeSetting(isEnabled)`; `writeOk` tells whether
`AsyncStorage.setItem` resolves (`true`) or rejects (`false`). -/
def saveNightModeSetting (writeOk : Bool) (isEnabled : Bool) (s : AppState) :
    AppState :=
  let value := booleanToString isEnabled
  let s1 := { s with setItemCalls := (NIGHT_MODE_STORAGE_KEY, value) :: s.setItemCalls }
  if writeOk then
    consoleLog "Night mode setting saved:"
      { s1 with storage := setItem NIGHT_MODE_STORAGE_KEY value s1.storage }
  else
    consoleError "Error saving night mode setting:" s1

/-- Function `provideFeedback(message)`. -/
def provideFeedback (message : String) (s : AppState) : AppState :=
  setTimeout Callback.clearFeedback 3000 (speak message (setFeedbackMessage message s))

/-- Function `toggleNightMode`, the press handler of the switch. -/
def toggleNightMode (r : Render) (writeOk : Bool) (s : AppState) : AppState :=
  let s0 := consoleLog "Toggle pressed, current mode:" s
  let newNightModeState := !r.isNightMode
  let s1 := setIsNightMode newNightModeState s0
  let message :=
    if newNightModeState then "Switching to night mode" else "Switching to day mode"
  let s2 := provideFeedback message s1
  saveNightModeSetting writeOk newNightModeState s2

/-- The guidance shown for a command that names no mode. -/
def notRecognizedMessage : String :=
  "Command not recognized. Try \"switch to day\" or \"switch to night\""

/-- The first test of `processVoiceCommand`:
`lowerCommand.includes('night') || lowerCommand.includes('dark')`. -/
def namesNight (lowerCommand : String) : Bool :=
  includes lowerCommand "night" || includes lowerCommand "dark"

/-- The second test of `processVoiceCommand`:
`lowerCommand.includes('day') || lowerCommand.includes('light')`. -/
def namesDay (lowerCommand : String) : Bool :=
  includes lowerCommand "day" || includes lowerCommand "light"

/-- Function `processVoiceCommand(command)`; `toLowerCase` is the lower-casing function
of the platform. -/
def processVoiceCommand (toLowerCase : String → String) (r : Render) (writeOk : Bool)
    (command : String) (s : AppState) : AppState :=
  let lowerCommand := toLowerCase command
  if namesNight lowerCommand then
    if !r.isNightMode then
      saveNightModeSetting writeOk true
        (provideFeedback "Switching to night mode" (setIsNightMode true s))
    else
      provideFeedback "Already in night mode" s
  else if namesDay lowerCommand then
    if r.isNightMode then
      saveNightModeSetting writeOk false
        (provideFeedback "Switching to day mode" (setIsNightMode false s))
    else
      provideFeedback "Already in day mode" s
  else
    provideFeedback notRecognizedMessage s

/-- Function `simulateSpeechRecognition(audioUri)`: the recognition is delivered by a
timer one second later, to the `processVoiceCommand` of the same render. -/
def simulateSpeechRecognition (r : Render) (audioUri : String) (s : AppState) :
    AppState :=
  setTimeout (Callback.recognize r audioUri) 1000 s

/-- The phrase list of the simulation; the index is
`Math.floor(Math.random() * commands.length)`. -/
def commands : Fin 4 → String
  | 0 => "switch to day"
  | 1 => "switch to night"
  | 2 => "day mode"
  | 3 => "night mode"

/-- What finalizing a capture does: `stopAndUnloadAsync` rejects, or it
resolves and `getURI()` returns a string or null. -/
inductive StopOutcome where
  | rejects
  | uri (value : Option String)
  deriving DecidableEq

/-- Function `stopListening`.  It runs up to its first `await` inside the
call; `during` is what its caller does after the call returns and before the
awaited promise settles (the identity when the caller awaits the call). -/
def stopListening (r : Render) (o : StopOutcome) (during : AppState → AppState)
    (s : AppState) : AppState :=
  match s.recording with
  | none => during s
  | some _ =>
    let s1 := during (setFeedbackMessage "Processing..." (setIsListening false s))
    match o with
    | StopOutcome.rejects =>
      setIsListening false
        (setFeedbackMessage "Failed to process voice command"
          (consoleError "Failed to stop recording" s1))
    | StopOutcome.uri u =>
      let s2 := { s1 with recording := none }
      match u with
      | none => setFeedbackMessage "No audio detected" s2
      | some uri =>
        if uri = "" then setFeedbackMessage "No audio detected" s2
        else simulateSpeechRecognition r uri s2

/-- Which of the three Audio calls of `startListening` succeed. -/
structure StartOutcome where
  /-- The constructor call `new Audio.Recording()` returns. -/
  construct : Bool
  /-- The call `prepareToRecordAsync` resolves. -/
  prepare : Bool
  /-- The call `startAsync` resolves. -/
  start : Bool
  deriving DecidableEq

/-- The `catch` block of `startListening`: `stopListening()` is called without
`await`, so the feedback is set while that call is suspended. -/
def startListeningFailed (r : Render) (stop : StopOutcome) (s : AppState) : AppState :=
  stopListening r stop (setFeedbackMessage "Voice recognition failed")
    (consoleError "Failed to start recording" s)

/-- Function `startListening`, the press handler of the microphone button. -/
def startListening (r : Render) (o : StartOutcome) (stop : StopOutcome)
    (s : AppState) : AppState :=
  if r.isListening then
    stopListening r stop id s
  else
    let s1 := setFeedbackMessage "Listening..." (setIsListening true s)
    if !o.construct then startListeningFailed r stop s1
    else
      let s2 := { s1 with recording := some s1.created, created := s1.created + 1 }
      if !o.prepare then startListeningFailed r stop s2
      else if !o.start then startListeningFailed r stop s2
      else setTimeout (Callback.ceiling r) 5000 s2

/-- Running a timer callback.  `random` is the index `Math.random` picks,
`writeOk` and `stop` are the outcomes of the storage write and of finalizing
the capture, should the callback get that far. -/
def runCallback (toLowerCase : String → String) (random : Fin 4) (writeOk : Bool)
    (stop : StopOutcome) : Callback → AppState → AppState
  | Callback.clearFeedback, s => setFeedbackMessage "" s
  | Callback.ceiling r, s => if r.isListening then stopListening r stop id s else s
  | Callback.recognize r _, s =>
    let recognizedCommand := commands random
    processVoiceCommand toLowerCase r writeOk recognizedCommand
      (setRecognizedText recognizedCommand s)

/-! ## Events -/

/-- What can happen to the mounted component. -/
inductive Event where
  /-- The switch is pressed (`onPress={toggleNightMode}`). -/
  | switchTap (writeOk : Bool)
  /-- The microphone button is pressed (`onPress={startListening}`). -/
  | micTap (o : StartOutcome) (stop : StopOutcome)
  /-- Time passes. -/
  | elapse (ms : Nat)
  /-- The pending timer at the given position fires. -/
  | timerFires (index : Nat) (random : Fin 4) (writeOk : Bool) (stop : StopOutcome)

/-- One event.  Press handlers belong to the current render; the buttons are
not rendered while `isLoading` is set; a timer fires no earlier than it is due
and runs with the snapshot its closure captured. -/
def step (toLowerCase : String → String) (s : AppState) : Event → AppState
  | Event.switchTap writeOk =>
    if s.isLoading then s else toggleNightMode (render s) writeOk s
  | Event.micTap o stop =>
    if s.isLoading then s else startListening (render s) o stop s
  | Event.elapse ms => { s with now := s.now + ms }
  | Event.timerFires index random writeOk stop =>
    match s.timers.get? index with
    | none => s
    | some t =>
      if t.due ≤ s.now then
        runCallback toLowerCase random writeOk stop t.callback
          { s with timers := s.timers.eraseIdx index }
      else s

/-- A sequence of events, oldest first. -/
def run (toLowerCase : String → String) (s : AppState) (events : List Event) : AppState :=
  events.foldl (step toLowerCase) s

/-- The component after it mounted and `loadNightModeSettings` finished. -/
def mounted (readOk : Bool) (storage : List (String × String)) : AppState :=
  loadNightModeSettings readOk (initialState storage)


/-! ## Concrete scenarios -/

/-- All three Audio calls of `startListening` succeed. -/
def startSucceeds : StartOutcome :=
  { construct := true, prepare := true, start := true }

/-- The snapshot of a render in DAY mode with no capture running. -/
def dayRender : Render :=
  { isNightMode := false, isListening := false }

/-- The snapshot of a render in NIGHT mode with no capture running. -/
def nightRender : Render :=
  { isNightMode := true, isListening := false }

/-- The snapshot of a render in DAY mode while a capture is running. -/
def recordingDayRender : Render :=
  { isNightMode := false, isListening := true }

/-- A capture is started and stopped by two presses of the microphone button,
the switch is pressed 400 ms later, and the clock reaches the moment the
recognition timer of the capture is due.  The app mounted in DAY mode. -/
def tapBeforeDelivery : List Event :=
  [ Event.micTap startSucceeds (StopOutcome.uri none),
    Event.micTap startSucceeds (StopOutcome.uri (some "file:///capture.m4a")),
    Event.elapse 400,
    Event.switchTap true,
    Event.elapse 600 ]

/-- A capture is started, the press that should stop it finds
`stopAndUnloadAsync` rejecting. -/
def failedStop : List Event :=
  [ Event.micTap startSucceeds (StopOutcome.uri none),
    Event.micTap startSucceeds StopOutcome.rejects ]

/-- A capture is started and never stopped by hand; five seconds pass. -/
def unattendedCapture : List Event :=
  [ Event.micTap startSucceeds (StopOutcome.uri none),
    Event.elapse 5000 ]

/-- The constructor `new Audio.Recording()` throws. -/
def constructThrows : StartOutcome :=
  { construct := false, prepare := true, start := true }

/-- The call `prepareToRecordAsync` rejects. -/
def prepareRejects : StartOutcome :=
  { construct := true, prepare := false, start := true }

/-- The switch is pressed, pressed again two seconds later, and the clock
reaches the moment the clearing timer of the first press is due. -/
def twoFeedbacks : List Event :=
  [ Event.switchTap true,
    Event.elapse 2000,
    Event.switchTap true,
    Event.elapse 1000 ]

/-- A call of one of the two functions that request a mode, with the render
snapshot it runs in. -/
inductive ModeCall where
  | toggle (r : Render)
  | voice (r : Render) (command : String)

/-- One mode request whose storage write succeeds. -/
def applyModeCall (toLowerCase : String → String) (s : AppState) : ModeCall → AppState
  | ModeCall.toggle r => toggleNightMode r true s
  | ModeCall.voice r command => processVoiceCommand toLowerCase r true command s

/-- A sequence of mode requests, oldest first, every write succeeding. -/
def applyModeCalls (toLowerCase : String → String) (s : AppState)
    (calls : List ModeCall) : AppState :=
  calls.foldl (applyModeCall toLowerCase) s

/-- The store and the mode agree: the key holds "true" exactly in NIGHT mode. -/
def storeMatchesMode (s : AppState) : Prop :=
  getItem NIGHT_MODE_STORAGE_KEY s.storage = some "true" ↔ s.isNightMode = true

/-! ## Animated values and the transition effect

The numbers are rationals and the clock counts milliseconds.  The effect is
modelled for a scene whose earlier animations have ended: a timing is started
on a value on which no other timing runs. -/

/-- A running `Animated.timing`: the number it ends at and the time it ends. -/
structure Tween where
  toValue : ℚ
  endsAt : Nat
  deriving DecidableEq

/-- An `Animated.Value`: the number it held when the last timing on it started
or ended or when it was last set, and the timing running on it, if any. -/
structure AnimatedValue where
  value : ℚ
  tween : Option Tween
  deriving DecidableEq

/-- The call `Animated.timing(v, { toValue, duration }).start()` at time `now`. -/
def AnimatedValue.timing (v : AnimatedValue) (toValue : ℚ) (duration now : Nat) :
    AnimatedValue :=
  { value := v.value, tween := some { toValue := toValue, endsAt := now + duration } }

/-- The call `v.setValue(x)`: the running animation is stopped and the number
is set. -/
def AnimatedValue.setValue (_v : AnimatedValue) (x : ℚ) : AnimatedValue :=
  { value := x, tween := none }

/-- The clock reaches `t`: a timing that ends by then has ended and left its
`toValue`. -/
def AnimatedValue.settle (v : AnimatedValue) (t : Nat) : AnimatedValue :=
  match v.tween with
  | none => v
  | some tw => if tw.endsAt ≤ t then { value := tw.toValue, tween := none } else v

/-- The `Animated.parallel([...]).start(callback)` of the transition effect
while it waits for its timings: the time the last of them ends, which is when
the callback runs, and the `isNightMode` the callback closes over. -/
structure PendingParallel where
  joinAt : Nat
  isNightMode : Bool
  deriving DecidableEq

/-- What the transition effect acts on, and what the render shows. -/
structure Scene where
  /-- Current time in milliseconds. -/
  now : Nat
  /-- The `isNightMode` of the last render: the moon subtree is mounted when it
  is true, the sun subtree when it is false. -/
  isNightMode : Bool
  switchAnim : AnimatedValue
  bgAnim : AnimatedValue
  celestialOpacity : AnimatedValue
  plantsOpacity : AnimatedValue
  /-- The first parallel of the effect, until its callback has run. -/
  fadeOut : Option PendingParallel
  deriving DecidableEq

/-- The scene of a component that has just been created: `switchAnim` and
`bgAnim` are `new Animated.Value(0)`, `celestialOpacity` and `plantsOpacity`
are `new Animated.Value(1)`, `isNightMode` is `useState(false)`. -/
def initialScene : Scene :=
  { now := 0
    isNightMode := false
    switchAnim := { value := 0, tween := none }
    bgAnim := { value := 0, tween := none }
    celestialOpacity := { value := 1, tween := none }
    plantsOpacity := { value := 1, tween := none }
    fadeOut := none }

/-- No animation of the transition runs. -/
def Scene.idle (sc : Scene) : Prop :=
  sc.switchAnim.tween = none ∧ sc.bgAnim.tween = none ∧
    sc.celestialOpacity.tween = none ∧ sc.plantsOpacity.tween = none ∧ sc.fadeOut = none

/-- The body of `useEffect(..., [isNightMode])` up to the `start` of the first
parallel: the background timing, and the parallel of the two 300 ms timings,
whose callback waits for both. -/
def transitionEffect (isNightMode : Bool) (sc : Scene) : Scene :=
  { sc with
    bgAnim := sc.bgAnim.timing (if isNightMode then 1 else 0) 600 sc.now
    celestialOpacity := sc.celestialOpacity.timing 0 300 sc.now
    plantsOpacity := sc.plantsOpacity.timing (if isNightMode then 0 else 1) 300 sc.now
    fadeOut := some { joinAt := max (sc.now + 300) (sc.now + 300), isNightMode := isNightMode } }

/-- The callback of the first parallel, run at time `joinAt`: the parallel of
the switch timing and the timing that brings the celestial opacity to 1. -/
def fadeInCallback (isNightMode : Bool) (joinAt : Nat) (sc : Scene) : Scene :=
  { sc with
    switchAnim := sc.switchAnim.timing (if isNightMode then 1 else 0) 300 joinAt
    celestialOpacity := sc.celestialOpacity.timing 1 500 joinAt
    fadeOut := none }

/-- Every timing of the scene that ends by `t` has ended. -/
def Scene.settle (sc : Scene) (t : Nat) : Scene :=
  { sc with
    switchAnim := sc.switchAnim.settle t
    bgAnim := sc.bgAnim.settle t
    celestialOpacity := sc.celestialOpacity.settle t
    plantsOpacity := sc.plantsOpacity.settle t }

/-- The clock moves to `t` with nothing else happening.  If the first parallel
is pending and due by `t`, its timings end, its callback runs at the join
time, and then whatever ends by `t` ends. -/
def advanceTo (t : Nat) (sc : Scene) : Scene :=
  match sc.fadeOut with
  | none => { sc.settle t with now := t }
  | some p =>
    if p.joinAt ≤ t then
      { (fadeInCallback p.isNightMode p.joinAt (sc.settle p.joinAt)).settle t with now := t }
    else
      { sc.settle t with now := t }

/-- The render that follows `setIsNightMode(value)`: the subtree of the new
mode is mounted.  A render does not touch the animated values. -/
def commitRender (isNightMode : Bool) (sc : Scene) : Scene :=
  { sc with isNightMode := isNightMode }

/-- A mode change as the scene sees it: the render with the new mode, then,
the render being committed, the transition effect. -/
def changeMode (isNightMode : Bool) (sc : Scene) : Scene :=
  transitionEffect isNightMode (commitRender isNightMode sc)

/-- The scene in DAY mode with every animation ended: what the mount of a DAY
app leaves once its first transition sequence has run. -/
def idleDayScene : Scene :=
  advanceTo 800 (changeMode false initialScene)

/-! ## Pulses of the sun and of the microphone button -/

/-- An `Animated.loop(Animated.sequence([a, b]))` of two timings: the numbers
the two timings end at and the duration of each. -/
structure PulseLoop where
  first : ℚ
  second : ℚ
  duration : Nat
  deriving DecidableEq

/-- An `Animated.Value` that is either at rest or driven by a loop.  While a
loop runs the number shown moves between the two ends of the loop; `value` is
the number the loop started from. -/
structure PulseValue where
  value : ℚ
  loop : Option PulseLoop
  deriving DecidableEq

/-- The three pulse values of the component. -/
structure Pulses where
  sunRaysPulse : PulseValue
  sunScaleAnim : PulseValue
  micPulse : PulseValue
  deriving DecidableEq

/-- The pulse values of a component that has just been created:
`new Animated.Value(0.8)`, `new Animated.Value(1)`, `new Animated.Value(1)`. -/
def initialPulses : Pulses :=
  { sunRaysPulse := { value := 0.8, loop := none }
    sunScaleAnim := { value := 1, loop := none }
    micPulse := { value := 1, loop := none } }

/-- The second `useEffect(..., [isNightMode])`: in DAY mode the two sun loops
are started, in NIGHT mode the two values are set to 0.8 and 1. -/
def sunPulseEffect (isNightMode : Bool) (p : Pulses) : Pulses :=
  if !isNightMode then
    { p with
      sunRaysPulse :=
        { value := p.sunRaysPulse.value
          loop := some { first := 1, second := 0.8, duration := 2000 } }
      sunScaleAnim :=
        { value := p.sunScaleAnim.value
          loop := some { first := 1.05, second := 1, duration := 2000 } } }
  else
    { p with
      sunRaysPulse := { value := 0.8, loop := none }
      sunScaleAnim := { value := 1, loop := none } }

/-- The effect `useEffect(..., [isListening])`: while listening the microphone
loop is started, otherwise the value is set to 1. -/
def micPulseEffect (isListening : Bool) (p : Pulses) : Pulses :=
  if isListening then
    { p with
      micPulse :=
        { value := p.micPulse.value
          loop := some { first := 1.2, second := 1, duration := 800 } } }
  else
    { p with micPulse := { value := 1, loop := none } }

/-! ## Snowfall and stars (`src/components/Snowfall.js`) -/

/-- One element of `snowflakes`, as `createSnowflakes` builds it. -/
structure Snowflake where
  id : String
  x : ℚ
  size : ℚ
  speed : ℚ
  opacity : ℚ
  wind : ℚ
  wobble : ℚ
  delay : ℚ
  deriving DecidableEq

/-- One element of `stars`, as `createStars` builds it. -/
structure Star where
  id : String
  x : ℚ
  y : ℚ
  size : ℚ
  opacity : ℚ
  twinkle : Bool
  twinkleSpeed : ℚ
  deriving DecidableEq

/-- The animation running on a value of Snowfall: the time it ends and the
`isActive` its completion callback closes over. -/
structure LoopRun where
  endsAt : ℚ
  isActive : Bool
  deriving DecidableEq

/-- An element of `animations` or of `twinkleAnimations`: the number it held
when the last animation on it started or ended or when it was last set, and
the animation running on it, if any. -/
structure LoopValue where
  value : ℚ
  running : Option LoopRun
  deriving DecidableEq

/-- A pending `setTimeout(() => startSnowfallAnimation(index), delay)`: when
it is due, the index, and the `isActive` of the render whose effect armed it. -/
structure StartTimer where
  due : ℚ
  index : Nat
  isActive : Bool
  deriving DecidableEq

/-- The refs of the Snowfall component, its prop and its pending timers. -/
structure SnowfallState where
  /-- Current time in milliseconds. -/
  now : ℚ
  /-- The prop `isActive` of the last render. -/
  isActive : Bool
  snowflakes : List Snowflake
  animations : List LoopValue
  stars : List Star
  twinkleAnimations : List LoopValue
  startTimers : List StartTimer
  deriving DecidableEq

/-- Function `startSnowfallAnimation(index)` of a render with the given
`isActive`: a timing to 1 is started on `animations[index]`; a timing that ran
there is stopped, and its callback, told `finished: false`, does nothing. -/
def startSnowfallAnimation (isActive : Bool) (index : Nat) (s : SnowfallState) :
    SnowfallState :=
  match s.snowflakes.get? index, s.animations.get? index with
  | some snowflake, some anim =>
    { s with
      animations := s.animations.set index
        { value := anim.value
          running := some
            { endsAt := s.now + (7000 + 5000 / snowflake.speed), isActive := isActive } } }
  | _, _ => s

/-- The completion callback of `startSnowfallAnimation`:
`({ finished }) => { if (finished && isActive) { ... } }`.  The arguments
`u1 u2 u3` are the three numbers `Math.random()` returns. -/
def snowfallCallback (SCREEN_WIDTH : ℚ) (isActive finished : Bool) (index : Nat)
    (u1 u2 u3 : ℚ) (s : SnowfallState) : SnowfallState :=
  if finished && isActive then
    let s1 := { s with animations := s.animations.set index { value := 0, running := none } }
    let s2 :=
      match s1.snowflakes.get? index with
      | none => s1
      | some snowflake =>
        { s1 with
          snowflakes := s1.snowflakes.set index
            { snowflake with x := u1 * SCREEN_WIDTH, wind := u2 * 4 - 2, wobble := u3 * 3 } }
    startSnowfallAnimation isActive index s2
  else s

/-- Function `startTwinkleAnimation(index)` of a render with the given
`isActive`: the sequence of two timings, each lasting `twinkleSpeed`. -/
def startTwinkleAnimation (isActive : Bool) (index : Nat) (s : SnowfallState) :
    SnowfallState :=
  match s.stars.get? index, s.twinkleAnimations.get? index with
  | some star, some anim =>
    { s with
      twinkleAnimations := s.twinkleAnimations.set index
        { value := anim.value
          running := some
            { endsAt := s.now + (star.twinkleSpeed + star.twinkleSpeed), isActive := isActive } } }
  | _, _ => s

/-- The completion callback of `startTwinkleAnimation`:
`({ finished }) => { if (finished && isActive && stars[index].twinkle) ... }`. -/
def twinkleCallback (isActive finished : Bool) (index : Nat) (s : SnowfallState) :
    SnowfallState :=
  match s.stars.get? index with
  | none => s
  | some star =>
    if finished && isActive && star.twinkle then startTwinkleAnimation isActive index s
    else s

/-- The loop `snowflakes.forEach((snowflake, index) => setTimeout(...))`, from
the given index on: the timers it arms. -/
def armStartTimers (isActive : Bool) (now : ℚ) : Nat → List Snowflake → List StartTimer
  | _, [] => []
  | index, snowflake :: rest =>
    { due := now + snowflake.delay, index := index, isActive := isActive } ::
      armStartTimers isActive now (index + 1) rest

/-- The loop `stars.forEach((star, index) => { if (star.twinkle) ... })`, from
the given index on. -/
def startTwinkles (isActive : Bool) : Nat → List Star → SnowfallState → SnowfallState
  | _, [], s => s
  | index, star :: rest, s =>
    startTwinkles isActive (index + 1) rest
      (if star.twinkle then startTwinkleAnimation isActive index s else s)

/-- The cleanup the effect returns: `Animated.timing(anim).stop()` on every
value.  A stopped animation calls back with `finished: false`, on which both
callbacks do nothing. -/
def snowfallCleanup (s : SnowfallState) : SnowfallState :=
  { s with
    animations := s.animations.map (fun anim => { anim with running := none })
    twinkleAnimations := s.twinkleAnimations.map (fun anim => { anim with running := none }) }

/-- The body of `useEffect(..., [isActive])` in a render with the given
`isActive`. -/
def snowfallEffect (isActive : Bool) (s : SnowfallState) : SnowfallState :=
  if isActive then
    startTwinkles isActive 0 s.stars
      { s with startTimers := s.startTimers ++ armStartTimers isActive s.now 0 s.snowflakes }
  else
    { s with
      animations := s.animations.map (fun _ => { value := 0, running := none })
      twinkleAnimations := s.twinkleAnimations.map (fun _ => { value := 1, running := none }) }

/-- The component after its first render and effect, over the snowflakes and
stars that `createSnowflakes(70)` and `createStars(100)` returned. -/
def mountSnowfall (isActive : Bool) (snowflakes : List Snowflake) (stars : List Star) :
    SnowfallState :=
  snowfallEffect isActive
    { now := 0
      isActive := isActive
      snowflakes := snowflakes
      animations := snowflakes.map (fun _ => { value := 0, running := none })
      stars := stars
      twinkleAnimations := stars.map (fun _ => { value := 1, running := none })
      startTimers := [] }

/-- A render with a new value of the prop: cleanup of the old effect, then the
effect of the new render.  With the same value the effect does not run. -/
def setActive (isActive : Bool) (s : SnowfallState) : SnowfallState :=
  if isActive = s.isActive then s
  else snowfallEffect isActive (snowfallCleanup { s with isActive := isActive })

/-- What can happen to the mounted Snowfall component. -/
inductive SnowfallEvent where
  /-- The parent renders it with this `isActive`. -/
  | setActive (isActive : Bool)
  /-- Time passes. -/
  | elapse (ms : Nat)
  /-- The pending start timer at the given position fires. -/
  | startTimerFires (position : Nat)
  /-- The timing on `animations[index]` reaches its end; `u1 u2 u3` are the
  numbers `Math.random()` returns in its callback. -/
  | fallCompletes (index : Nat) (u1 u2 u3 : ℚ)
  /-- The sequence on `twinkleAnimations[index]` reaches its end. -/
  | twinkleCompletes (index : Nat)

/-- One event.  A timer fires no earlier than it is due and an animation ends
no earlier than its end time; both run the callback of the render that created
them. -/
def snowfallStep (SCREEN_WIDTH : ℚ) (s : SnowfallState) : SnowfallEvent → SnowfallState
  | SnowfallEvent.setActive isActive => setActive isActive s
  | SnowfallEvent.elapse ms => { s with now := s.now + ms }
  | SnowfallEvent.startTimerFires position =>
    match s.startTimers.get? position with
    | none => s
    | some timer =>
      if timer.due ≤ s.now then
        startSnowfallAnimation timer.isActive timer.index
          { s with startTimers := s.startTimers.eraseIdx position }
      else s
  | SnowfallEvent.fallCompletes index u1 u2 u3 =>
    match s.animations.get? index with
    | none => s
    | some anim =>
      match anim.running with
      | none => s
      | some run =>
        if run.endsAt ≤ s.now then
          snowfallCallback SCREEN_WIDTH run.isActive true index u1 u2 u3
            { s with animations := s.animations.set index { value := 1, running := none } }
        else s
  | SnowfallEvent.twinkleCompletes index =>
    match s.twinkleAnimations.get? index with
    | none => s
    | some anim =>
      match anim.running with
      | none => s
      | some run =>
        if run.endsAt ≤ s.now then
          twinkleCallback run.isActive true index
            { s with
              twinkleAnimations :=
                s.twinkleAnimations.set index { value := 1, running := none } }
        else s

/-- A sequence of events, oldest first. -/
def snowfallRun (SCREEN_WIDTH : ℚ) (s : SnowfallState) (events : List SnowfallEvent) :
    SnowfallState :=
  events.foldl (snowfallStep SCREEN_WIDTH) s

/-- A snowflake with a start delay of 3000 ms and a fall of 8000 ms. -/
def sampleSnowflake : Snowflake :=
  { id := "0.25", x := 120, size := 5, speed := 5, opacity := 1 / 2, wind := 1,
    wobble := 2, delay := 3000 }

/-- A star that twinkles, one second each way. -/
def sampleStar : Star :=
  { id := "0.75", x := 40, y := 60, size := 2, opacity := 1, twinkle := true,
    twinkleSpeed := 1000 }

/-- The effect is activated, deactivated one second later, and the clock
reaches the moment the start timer of the snowflake is due. -/
def deactivatedBeforeStart : List SnowfallEvent :=
  [ SnowfallEvent.setActive true,
    SnowfallEvent.elapse 1000,
    SnowfallEvent.setActive false,
    SnowfallEvent.elapse 2000 ]

/-- The effect is activated and the snowflake falls once: its start timer
fires at 3000 ms and its timing ends at 11000 ms, where `Math.random()`
returns 1/2, 1/4 and 1/3. -/
def oneTraversal : List SnowfallEvent :=
  [ SnowfallEvent.setActive true,
    SnowfallEvent.elapse 3000,
    SnowfallEvent.startTimerFires 0,
    SnowfallEvent.elapse 8000,
    SnowfallEvent.fallCompletes 0 (1 / 2) (1 / 4) (1 / 3) ]

/-- The pulse values of a DAY app that is listening: both sun loops and the
microphone loop run. -/
def runningPulses : Pulses :=
  micPulseEffect true (sunPulseEffect false initialPulses)

/-! ## Projections of the building blocks -/

section Projections

variable (s : AppState)

@[simp] theorem provideFeedback_isNightMode (m : String) :
    (provideFeedback m s).isNightMode = s.isNightMode := rfl

@[simp] theorem provideFeedback_feedbackMessage (m : String) :
    (provideFeedback m s).feedbackMessage = m := rfl

@[simp] theorem provideFeedback_spoken (m : String) :
    (provideFeedback m s).spoken = m :: s.spoken := rfl

@[simp] theorem provideFeedback_storage (m : String) :
    (provideFeedback m s).storage = s.storage := rfl

@[simp] theorem provideFeedback_setItemCalls (m : String) :
    (provideFeedback m s).setItemCalls = s.setItemCalls := rfl

@[simp] theorem provideFeedback_timers (m : String) :
    (provideFeedback m s).timers =
      s.timers ++ [{ due := s.now + 3000, callback := Callback.clearFeedback }] := rfl

@[simp] theorem provideFeedback_transitionRuns (m : String) :
    (provideFeedback m s).transitionRuns = s.transitionRuns := rfl

@[simp] theorem saveNightModeSetting_isNightMode (w b : Bool) :
    (saveNightModeSetting w b s).isNightMode = s.isNightMode := by
  cases w <;> rfl

@[simp] theorem saveNightModeSetting_feedbackMessage (w b : Bool) :
    (saveNightModeSetting w b s).feedbackMessage = s.feedbackMessage := by
  cases w <;> rfl

@[simp] theorem saveNightModeSetting_spoken (w b : Bool) :
    (saveNightModeSetting w b s).spoken = s.spoken := by
  cases w <;> rfl

@[simp] theorem saveNightModeSetting_timers (w b : Bool) :
    (saveNightModeSetting w b s).timers = s.timers := by
  cases w <;> rfl

@[simp] theorem saveNightModeSetting_transitionRuns (w b : Bool) :
    (saveNightModeSetting w b s).transitionRuns = s.transitionRuns := by
  cases w <;> rfl

@[simp] theorem saveNightModeSetting_setItemCalls (w b : Bool) :
    (saveNightModeSetting w b s).setItemCalls =
      (NIGHT_MODE_STORAGE_KEY, booleanToString b) :: s.setItemCalls := by
  cases w <;> rfl

@[simp] theorem saveNightModeSetting_storage (w b : Bool) :
    (saveNightModeSetting w b s).storage =
      if w then setItem NIGHT_MODE_STORAGE_KEY (booleanToString b) s.storage
      else s.storage := by
  cases w <;> rfl

@[simp] theorem setIsNightMode_isNightMode (b : Bool) :
    (setIsNightMode b s).isNightMode = b := rfl

@[simp] theorem setIsNightMode_storage (b : Bool) :
    (setIsNightMode b s).storage = s.storage := rfl

@[simp] theorem setIsNightMode_setItemCalls (b : Bool) :
    (setIsNightMode b s).setItemCalls = s.setItemCalls := rfl

@[simp] theorem setIsNightMode_spoken (b : Bool) :
    (setIsNightMode b s).spoken = s.spoken := rfl

@[simp] theorem setIsNightMode_timers (b : Bool) :
    (setIsNightMode b s).timers = s.timers := rfl

@[simp] theorem setIsNightMode_now (b : Bool) :
    (setIsNightMode b s).now = s.now := rfl

end Projections

/-- Reading back the key that was just written gives the written value. -/
theorem getItem_setItem (key value : String) (store : List (String × String)) :
    getItem key (setItem key value store) = some value := by
  simp [setItem, getItem]

/-! ## Voice commands -/

/-- C1: `processVoiceCommand` resolves the target by substring match on the
lower-cased command, in priority order.  The feedback it produces names the
target: a night feedback when the text contains "night" or "dark", otherwise
a day feedback when it contains "day" or "light", otherwise the guidance for
an unrecognized command.  In particular a text with both a night keyword and
a day keyword gets a night feedback. -/
theorem processVoiceCommand_resolves_by_priority (toLowerCase : String → String)
    (r : Render) (writeOk : Bool) (command : String) (s : AppState) :
    (processVoiceCommand toLowerCase r writeOk command s).feedbackMessage =
        (if includes (toLowerCase command) "night" = true ∨
            includes (toLowerCase command) "dark" = true then
          (if r.isNightMode then "Already in night mode" else "Switching to night mode")
        else if includes (toLowerCase command) "day" = true ∨
            includes (toLowerCase command) "light" = true then
          (if r.isNightMode then "Switching to day mode" else "Already in day mode")
        else notRecognizedMessage) ∧
      ((includes (toLowerCase command) "night" = true ∨
          includes (toLowerCase command) "dark" = true) →
        (includes (toLowerCase command) "day" = true ∨
          includes (toLowerCase command) "light" = true) →
        (processVoiceCommand toLowerCase r writeOk command s).feedbackMessage =
          (if r.isNightMode then "Already in night mode" else "Switching to night mode")) := by
  have hmsg : (processVoiceCommand toLowerCase r writeOk command s).feedbackMessage =
        (if includes (toLowerCase command) "night" = true ∨
            includes (toLowerCase command) "dark" = true then
          (if r.isNightMode then "Already in night mode" else "Switching to night mode")
        else if includes (toLowerCase command) "day" = true ∨
            includes (toLowerCase command) "light" = true then
          (if r.isNightMode then "Switching to day mode" else "Already in day mode")
        else notRecognizedMessage) := by
    unfold processVoiceCommand namesNight namesDay
    cases hn : includes (toLowerCase command) "night" <;>
      cases hd : includes (toLowerCase command) "dark" <;>
      cases hy : includes (toLowerCase command) "day" <;>
      cases hl : includes (toLowerCase command) "light" <;>
      cases hr : r.isNightMode <;> simp [hn, hd, hy, hl, hr]
  refine ⟨hmsg, ?_⟩
  intro hnight _
  rw [hmsg, if_pos hnight]

/-- C1, at a concrete command: "Light or NIGHT" holds a day keyword and, in
upper case, a night keyword; from DAY it is answered as a night command. -/
theorem processVoiceCommand_resolves_by_priority_witness :
    includes (asciiLower "Light or NIGHT") "night" = true ∧
      includes (asciiLower "Light or NIGHT") "light" = true ∧
      (processVoiceCommand asciiLower dayRender true "Light or NIGHT"
        (mounted true [])).feedbackMessage = "Switching to night mode" :=
  ⟨by decide, by decide,
    (processVoiceCommand_resolves_by_priority asciiLower dayRender true
      "Light or NIGHT" (mounted true [])).2 (Or.inl (by decide)) (Or.inr (by decide))⟩

/-- A command whose target differs from the `isNightMode` of the render the
handler belongs to changes the mode to the target, produces the "Switching to
..." feedback of the target and calls `setItem` with the target under the
storage key; the value is in the store when the write succeeds.  That render
need not be the current one. -/
theorem processVoiceCommand_switches_mode (toLowerCase : String → String)
    (r : Render) (writeOk : Bool) (command : String) (s : AppState) (target : Bool)
    (hresolve : (namesNight (toLowerCase command) = true ∧ target = true) ∨
      (namesNight (toLowerCase command) = false ∧
        namesDay (toLowerCase command) = true ∧ target = false))
    (hdiffers : target ≠ r.isNightMode) :
    (processVoiceCommand toLowerCase r writeOk command s).isNightMode = target ∧
      (processVoiceCommand toLowerCase r writeOk command s).feedbackMessage =
        (if target then "Switching to night mode" else "Switching to day mode") ∧
      (processVoiceCommand toLowerCase r writeOk command s).setItemCalls =
        (NIGHT_MODE_STORAGE_KEY, booleanToString target) :: s.setItemCalls ∧
      (writeOk = true →
        getItem NIGHT_MODE_STORAGE_KEY
          (processVoiceCommand toLowerCase r writeOk command s).storage =
            some (booleanToString target)) := by
  unfold processVoiceCommand
  rcases hresolve with ⟨hn, ht⟩ | ⟨hn, hd, ht⟩
  · subst ht
    have hr : r.isNightMode = false := by
      cases h : r.isNightMode
      · rfl
      · exact absurd h.symm hdiffers
    simp only [hn, hr]
    refine ⟨by simp, by simp, by simp, ?_⟩
    intro hw
    simp [hw, getItem_setItem]
  · subst ht
    have hr : r.isNightMode = true := by
      cases h : r.isNightMode
      · exact absurd h.symm hdiffers
      · rfl
    simp only [hn, hd, hr]
    refine ⟨by simp, by simp, by simp, ?_⟩
    intro hw
    simp [hw, getItem_setItem]

/-- The example of the specification, in a render that is current: "switch to
night" from DAY gives NIGHT and "Switching to night mode". -/
theorem processVoiceCommand_switches_mode_witness :
    namesNight (asciiLower "switch to night") = true ∧
      (processVoiceCommand asciiLower dayRender true "switch to night"
        (mounted true [])).isNightMode = true ∧
      (processVoiceCommand asciiLower dayRender true "switch to night"
        (mounted true [])).feedbackMessage = "Switching to night mode" ∧
      (processVoiceCommand asciiLower dayRender true "switch to night"
        (mounted true [])).setItemCalls = [(NIGHT_MODE_STORAGE_KEY, "true")] ∧
      getItem NIGHT_MODE_STORAGE_KEY
          (processVoiceCommand asciiLower dayRender true "switch to night"
            (mounted true [])).storage = some "true" :=
  have h := processVoiceCommand_switches_mode asciiLower dayRender true "switch to night"
    (mounted true []) true (Or.inl ⟨by decide, rfl⟩) (by decide)
  ⟨by decide, h.1, h.2.1, h.2.2.1, h.2.2.2 rfl⟩

/-- C2: the switch is pressed between the end of a capture and the delivery of
its recognized command.  The command delivered, "day mode", resolves to DAY
and the current mode is NIGHT, so the target differs from the current mode;
yet the handler, which still sees the DAY of the render that stopped the
capture, answers "Already in day mode": the mode stays NIGHT and `setItem` is
not called. -/
theorem recognition_after_switch_tap_keeps_mode :
    (run asciiLower (mounted true []) tapBeforeDelivery).isNightMode = true ∧
      (run asciiLower (mounted true []) tapBeforeDelivery).timers.get? 1 =
        some { due := 1000, callback := Callback.recognize recordingDayRender "file:///capture.m4a" } ∧
      commands 2 = "day mode" ∧
      namesNight (asciiLower (commands 2)) = false ∧
      namesDay (asciiLower (commands 2)) = true ∧
      (step asciiLower (run asciiLower (mounted true []) tapBeforeDelivery)
        (Event.timerFires 1 2 true StopOutcome.rejects)).isNightMode = true ∧
      (step asciiLower (run asciiLower (mounted true []) tapBeforeDelivery)
        (Event.timerFires 1 2 true StopOutcome.rejects)).feedbackMessage =
          "Already in day mode" ∧
      (step asciiLower (run asciiLower (mounted true []) tapBeforeDelivery)
        (Event.timerFires 1 2 true StopOutcome.rejects)).setItemCalls =
          (run asciiLower (mounted true []) tapBeforeDelivery).setItemCalls ∧
      (processVoiceCommand asciiLower recordingDayRender true "day mode"
        (run asciiLower (mounted true []) tapBeforeDelivery)).isNightMode = true := by
  decide

/-- When the target of a command equals the mode the handler sees, the handler
sets no state variable but the feedback, writes nothing and answers "Already
in ... mode". -/
theorem processVoiceCommand_already_in_mode (toLowerCase : String → String)
    (r : Render) (writeOk : Bool) (command : String) (s : AppState) (target : Bool)
    (hresolve : (namesNight (toLowerCase command) = true ∧ target = true) ∨
      (namesNight (toLowerCase command) = false ∧
        namesDay (toLowerCase command) = true ∧ target = false))
    (hsame : target = r.isNightMode) :
    processVoiceCommand toLowerCase r writeOk command s =
      provideFeedback
        (if target then "Already in night mode" else "Already in day mode") s := by
  unfold processVoiceCommand
  rcases hresolve with ⟨hn, ht⟩ | ⟨hn, hd, ht⟩
  · subst ht
    simp [hn, ← hsame]
  · subst ht
    simp [hn, hd, ← hsame]

/-- C3: the switch is pressed between the end of a capture and the delivery of
its recognized command.  When "night mode" is delivered the mode is already
NIGHT, yet the handler, which still sees the DAY of the render that stopped
the capture, answers "Switching to night mode" and calls `setItem` again. -/
theorem recognition_after_switch_tap_repeats_switch :
    (run asciiLower (mounted true []) tapBeforeDelivery).isNightMode = true ∧
      (run asciiLower (mounted true []) tapBeforeDelivery).timers.get? 1 =
        some { due := 1000, callback := Callback.recognize recordingDayRender "file:///capture.m4a" } ∧
      (run asciiLower (mounted true []) tapBeforeDelivery).now = 1000 ∧
      commands 3 = "night mode" ∧
      (step asciiLower (run asciiLower (mounted true []) tapBeforeDelivery)
        (Event.timerFires 1 3 true StopOutcome.rejects)).isNightMode = true ∧
      (step asciiLower (run asciiLower (mounted true []) tapBeforeDelivery)
        (Event.timerFires 1 3 true StopOutcome.rejects)).feedbackMessage =
          "Switching to night mode" ∧
      (step asciiLower (run asciiLower (mounted true []) tapBeforeDelivery)
        (Event.timerFires 1 3 true StopOutcome.rejects)).setItemCalls =
          (NIGHT_MODE_STORAGE_KEY, "true") ::
            (run asciiLower (mounted true []) tapBeforeDelivery).setItemCalls := by
  decide

/-- C4: a command with none of the four keywords leaves the mode, the store
and the list of `setItem` calls as they were, runs no transition and sets the
feedback to the guidance message. -/
theorem processVoiceCommand_not_recognized (toLowerCase : String → String)
    (r : Render) (writeOk : Bool) (command : String) (s : AppState)
    (hnight : includes (toLowerCase command) "night" = false)
    (hdark : includes (toLowerCase command) "dark" = false)
    (hday : includes (toLowerCase command) "day" = false)
    (hlight : includes (toLowerCase command) "light" = false) :
    (processVoiceCommand toLowerCase r writeOk command s).isNightMode = s.isNightMode ∧
      (processVoiceCommand toLowerCase r writeOk command s).storage = s.storage ∧
      (processVoiceCommand toLowerCase r writeOk command s).setItemCalls = s.setItemCalls ∧
      (processVoiceCommand toLowerCase r writeOk command s).transitionRuns =
        s.transitionRuns ∧
      (processVoiceCommand toLowerCase r writeOk command s).feedbackMessage =
        "Command not recognized. Try \"switch to day\" or \"switch to night\"" := by
  have h : processVoiceCommand toLowerCase r writeOk command s =
      provideFeedback notRecognizedMessage s := by
    simp [processVoiceCommand, namesNight, namesDay, hnight, hdark, hday, hlight]
  rw [h]
  exact ⟨rfl, rfl, rfl, rfl, rfl⟩

/-- C4, at the example of the specification: "banana" in NIGHT mode. -/
theorem processVoiceCommand_not_recognized_witness :
    (processVoiceCommand asciiLower nightRender true "banana"
        (mounted true [(NIGHT_MODE_STORAGE_KEY, "true")])).isNightMode = true ∧
      (processVoiceCommand asciiLower nightRender true "banana"
        (mounted true [(NIGHT_MODE_STORAGE_KEY, "true")])).storage =
          [(NIGHT_MODE_STORAGE_KEY, "true")] ∧
      (processVoiceCommand asciiLower nightRender true "banana"
        (mounted true [(NIGHT_MODE_STORAGE_KEY, "true")])).feedbackMessage =
          "Command not recognized. Try \"switch to day\" or \"switch to night\"" :=
  have h := processVoiceCommand_not_recognized asciiLower nightRender true "banana"
    (mounted true [(NIGHT_MODE_STORAGE_KEY, "true")])
    (by decide) (by decide) (by decide) (by decide)
  ⟨h.1, h.2.1, h.2.2.2.2⟩

/-- C5: one call of `processVoiceCommand` makes exactly one call of
`provideFeedback`: one text is added to what was spoken, that text is the
feedback shown, and one clearing timer is armed. -/
theorem processVoiceCommand_one_feedback (toLowerCase : String → String)
    (r : Render) (writeOk : Bool) (command : String) (s : AppState) :
    ∃ message : String,
      (processVoiceCommand toLowerCase r writeOk command s).spoken = message :: s.spoken ∧
      (processVoiceCommand toLowerCase r writeOk command s).feedbackMessage = message ∧
      (processVoiceCommand toLowerCase r writeOk command s).timers =
        s.timers ++ [{ due := s.now + 3000, callback := Callback.clearFeedback }] := by
  unfold processVoiceCommand
  cases hn : namesNight (toLowerCase command) <;>
    cases hd : namesDay (toLowerCase command) <;>
    cases hr : r.isNightMode <;> simp [hn, hd, hr]


/-! ## The switch and the preference store -/

/-- C6: the press handler of the switch, run in the current render, sets the
mode to its negation, announces "Switching to night mode" or "Switching to day
mode" for the new mode and calls `setItem` with it.  The new mode and the
announcement are the same whether the write succeeds or not; a failed write
changes nothing in the store and is reported on the console only. -/
theorem toggleNightMode_negates_and_persists (writeOk : Bool) (s : AppState) :
    (toggleNightMode (render s) writeOk s).isNightMode = !s.isNightMode ∧
      (toggleNightMode (render s) writeOk s).feedbackMessage =
        (if !s.isNightMode then "Switching to night mode" else "Switching to day mode") ∧
      (toggleNightMode (render s) writeOk s).spoken =
        (if !s.isNightMode then "Switching to night mode" else "Switching to day mode") ::
          s.spoken ∧
      (toggleNightMode (render s) writeOk s).setItemCalls =
        (NIGHT_MODE_STORAGE_KEY, if !s.isNightMode then "true" else "false") ::
          s.setItemCalls ∧
      (toggleNightMode (render s) writeOk s).storage =
        (if writeOk then
          setItem NIGHT_MODE_STORAGE_KEY (if !s.isNightMode then "true" else "false") s.storage
        else s.storage) ∧
      (toggleNightMode (render s) false s).console =
        ConsoleLine.error "Error saving night mode setting:" ::
          ConsoleLine.log "Toggle pressed, current mode:" :: s.console := by
  unfold toggleNightMode render
  refine ⟨by simp, ?_, ?_, ?_, ?_, rfl⟩
  · cases s.isNightMode <;> simp
  · cases s.isNightMode <;> simp [consoleLog]
  · cases s.isNightMode <;> simp [consoleLog, booleanToString]
  · cases s.isNightMode <;> cases writeOk <;> simp [consoleLog, booleanToString]

/-- C7: `loadNightModeSettings` sets NIGHT exactly when the read succeeds and
the stored value is the string "true"; an absent value, another string or a
failed read give DAY; the loading flag is cleared in every case. -/
theorem loadNightModeSettings_mode_and_loading (readOk : Bool) (s : AppState) :
    ((loadNightModeSettings readOk s).isNightMode = true ↔
        (readOk = true ∧ getItem NIGHT_MODE_STORAGE_KEY s.storage = some "true")) ∧
      (loadNightModeSettings false s).isNightMode = false ∧
      (loadNightModeSettings readOk s).isLoading = false := by
  cases readOk
  · simp [loadNightModeSettings, setIsLoading]
  · simp [loadNightModeSettings, setIsLoading]

/-- C8: `saveNightModeSetting(b)` calls `setItem` with the storage key and the
literal "true" or "false"; when the write succeeds that string is what the key
holds, and `loadNightModeSettings` run next gives the mode `b`. -/
theorem save_then_load_round_trip (b : Bool) (s : AppState) :
    (saveNightModeSetting true b s).setItemCalls =
        (NIGHT_MODE_STORAGE_KEY, if b then "true" else "false") :: s.setItemCalls ∧
      getItem NIGHT_MODE_STORAGE_KEY (saveNightModeSetting true b s).storage =
        some (if b then "true" else "false") ∧
      (loadNightModeSettings true (saveNightModeSetting true b s)).isNightMode = b := by
  refine ⟨by simp [booleanToString], ?_, ?_⟩
  · simp [getItem_setItem, booleanToString]
  · cases b <;> simp [loadNightModeSettings, setIsLoading, getItem_setItem, booleanToString]

/-! ## Sequences of mode requests -/

/-- The transition effect runs after `setIsNightMode` exactly when the value
changes. -/
theorem setIsNightMode_transitionRuns (value : Bool) (s : AppState) :
    (setIsNightMode value s).transitionRuns =
      if value = s.isNightMode then s.transitionRuns else s.transitionRuns + 1 := rfl

/-- C9: the app is in DAY mode when a capture is stopped; the switch is pressed
(mode NIGHT) before the recognized command is delivered; the command delivered
is "switch to day".  The handler still sees DAY, answers "Already in day mode"
and leaves the mode at NIGHT, though DAY was requested last. -/
theorem recognition_after_switch_tap_ignores_day_request :
    (run asciiLower (mounted true []) (tapBeforeDelivery.take 3)).isNightMode = false ∧
      (run asciiLower (mounted true []) tapBeforeDelivery).isNightMode = true ∧
      commands 0 = "switch to day" ∧
      (step asciiLower (run asciiLower (mounted true []) tapBeforeDelivery)
        (Event.timerFires 1 0 true StopOutcome.rejects)).recognizedText = "switch to day" ∧
      (step asciiLower (run asciiLower (mounted true []) tapBeforeDelivery)
        (Event.timerFires 1 0 true StopOutcome.rejects)).isNightMode = true ∧
      (step asciiLower (run asciiLower (mounted true []) tapBeforeDelivery)
        (Event.timerFires 1 0 true StopOutcome.rejects)).feedbackMessage =
          "Already in day mode" ∧
      getItem NIGHT_MODE_STORAGE_KEY
        (step asciiLower (run asciiLower (mounted true []) tapBeforeDelivery)
          (Event.timerFires 1 0 true StopOutcome.rejects)).storage = some "true" := by
  decide

/-! ## Listening sessions -/

/-- The field `created` after `stopListening` is the one its caller leaves. -/
theorem stopListening_created (r : Render) (o : StopOutcome) (s : AppState) :
    (stopListening r o id s).created = s.created := by
  unfold stopListening
  cases hrec : s.recording with
  | none => rfl
  | some n =>
    cases o with
    | rejects => rfl
    | uri u =>
      cases u with
      | none => rfl
      | some v =>
        by_cases hv : v = ""
        · simp [hv, setFeedbackMessage, setIsListening]
        · simp [hv, simulateSpeechRecognition, setTimeout, setFeedbackMessage, setIsListening]

/-- A press of the microphone button in a render that shows RECORDING runs
`stopListening` and constructs no recording. -/
theorem startListening_while_recording (r : Render) (o : StartOutcome)
    (stop : StopOutcome) (s : AppState) (hrec : r.isListening = true) :
    startListening r o stop s = stopListening r stop id s ∧
      (startListening r o stop s).created = s.created := by
  have h : startListening r o stop s = stopListening r stop id s := by
    simp [startListening, hrec]
  exact ⟨h, by rw [h, stopListening_created]⟩

/-- C10: a capture is started and the press that stops it finds
`stopAndUnloadAsync` rejecting.  The `catch` block clears `isListening` and
leaves `recording.current` holding recording 0; the next press sees no
RECORDING status and constructs recording 1 while recording 0 is still held. -/
theorem startListening_after_failed_stop_creates_second :
    (run asciiLower (mounted true []) failedStop).isListening = false ∧
      (run asciiLower (mounted true []) failedStop).recording = some 0 ∧
      (run asciiLower (mounted true []) failedStop).created = 1 ∧
      (run asciiLower (mounted true []) failedStop).feedbackMessage =
        "Failed to process voice command" ∧
      (step asciiLower (run asciiLower (mounted true []) failedStop)
        (Event.micTap startSucceeds (StopOutcome.uri none))).recording = some 1 ∧
      (step asciiLower (run asciiLower (mounted true []) failedStop)
        (Event.micTap startSucceeds (StopOutcome.uri none))).created = 2 ∧
      (step asciiLower (run asciiLower (mounted true []) failedStop)
        (Event.micTap startSucceeds (StopOutcome.uri none))).isListening = true := by
  decide

/-- The callback of the ceiling timer does nothing when the render that armed
it had `isListening` false. -/
theorem ceiling_callback_of_idle_render (toLowerCase : String → String) (random : Fin 4)
    (writeOk : Bool) (stop : StopOutcome) (r : Render) (s : AppState)
    (hidle : r.isListening = false) :
    runCallback toLowerCase random writeOk stop (Callback.ceiling r) s = s := by
  simp [runCallback, hidle]

/-- A successful `startListening` arms the ceiling timer with the snapshot of
its own render, in which `isListening` is false. -/
theorem startListening_arms_ceiling (r : Render) (stop : StopOutcome) (s : AppState)
    (hidle : r.isListening = false) :
    (startListening r startSucceeds stop s).timers =
        s.timers ++ [{ due := s.now + 5000, callback := Callback.ceiling r }] ∧
      (startListening r startSucceeds stop s).isListening = true ∧
      (startListening r startSucceeds stop s).recording = some s.created := by
  simp [startListening, hidle, startSucceeds, setTimeout, setFeedbackMessage, setIsListening]

/-- C11: a capture is started and left alone.  When the ceiling timer fires at
5000 ms its callback tests the `isListening` of the render that armed it, which
is false, and returns: the status is still RECORDING, the feedback is still
"Listening..." and the recording is still held. -/
theorem ceiling_timer_leaves_session_recording :
    (run asciiLower (mounted true []) unattendedCapture).timers =
        [{ due := 5000, callback := Callback.ceiling dayRender }] ∧
      (run asciiLower (mounted true []) unattendedCapture).now = 5000 ∧
      (step asciiLower (run asciiLower (mounted true []) unattendedCapture)
        (Event.timerFires 0 0 true (StopOutcome.uri (some "file:///capture.m4a")))).timers
          = [] ∧
      (step asciiLower (run asciiLower (mounted true []) unattendedCapture)
        (Event.timerFires 0 0 true (StopOutcome.uri (some "file:///capture.m4a")))).isListening
          = true ∧
      (step asciiLower (run asciiLower (mounted true []) unattendedCapture)
        (Event.timerFires 0 0 true
          (StopOutcome.uri (some "file:///capture.m4a")))).feedbackMessage
          = "Listening..." ∧
      (step asciiLower (run asciiLower (mounted true []) unattendedCapture)
        (Event.timerFires 0 0 true (StopOutcome.uri (some "file:///capture.m4a")))).recording
          = some 0 := by
  decide

/-- C12: two errors after which the session is not fully aborted.  When
`stopAndUnloadAsync` rejects, `isListening` is cleared and an error feedback is
set, but `recording.current` still holds the recording.  When the constructor
throws, the feedback is set but `isListening` stays true. -/
theorem capture_errors_leave_session_state :
    (stopListening recordingDayRender StopOutcome.rejects id
        (startListening dayRender startSucceeds StopOutcome.rejects
          (mounted true []))).isListening = false ∧
      (stopListening recordingDayRender StopOutcome.rejects id
        (startListening dayRender startSucceeds StopOutcome.rejects
          (mounted true []))).feedbackMessage = "Failed to process voice command" ∧
      (stopListening recordingDayRender StopOutcome.rejects id
        (startListening dayRender startSucceeds StopOutcome.rejects
          (mounted true []))).recording = some 0 ∧
      (startListening dayRender prepareRejects StopOutcome.rejects
        (mounted true [])).recording = some 0 ∧
      (startListening dayRender constructThrows StopOutcome.rejects
        (mounted true [])).feedbackMessage = "Voice recognition failed" ∧
      (startListening dayRender constructThrows StopOutcome.rejects
        (mounted true [])).recording = none ∧
      (startListening dayRender constructThrows StopOutcome.rejects
        (mounted true [])).isListening = true := by
  decide

/-- C13: when a capture is finalized and `getURI()` gives no handle (null or
the empty string), the feedback is "No audio detected", the recording
reference is cleared, `isListening` is false and no recognition is scheduled:
the timers, the recognized text, the mode and the store are as before.  This
holds for a call that is awaited (`during` the identity) and for the call from
the `catch` block of `startListening` (`during` sets a feedback). -/
theorem stopListening_no_audio (r : Render) (u : Option String)
    (during : AppState → AppState) (s : AppState) (n : Nat)
    (hrec : s.recording = some n) (hu : u = none ∨ u = some "")
    (hduring : during = id ∨ ∃ message, during = setFeedbackMessage message) :
    (stopListening r (StopOutcome.uri u) during s).feedbackMessage = "No audio detected" ∧
      (stopListening r (StopOutcome.uri u) during s).recording = none ∧
      (stopListening r (StopOutcome.uri u) during s).isListening = false ∧
      (stopListening r (StopOutcome.uri u) during s).timers = s.timers ∧
      (stopListening r (StopOutcome.uri u) during s).recognizedText = s.recognizedText ∧
      (stopListening r (StopOutcome.uri u) during s).isNightMode = s.isNightMode ∧
      (stopListening r (StopOutcome.uri u) during s).storage = s.storage ∧
      (stopListening r (StopOutcome.uri u) during s).setItemCalls = s.setItemCalls := by
  unfold stopListening
  rcases hduring with hd | ⟨message, hd⟩ <;> subst hd <;>
    rcases hu with hu | hu <;> subst hu <;>
    simp [hrec, setFeedbackMessage, setIsListening]

/-- C13, at a running capture whose finalization gives no URI. -/
theorem stopListening_no_audio_witness :
    (startListening dayRender startSucceeds StopOutcome.rejects
        (mounted true [])).recording = some 0 ∧
      (stopListening recordingDayRender (StopOutcome.uri none) id
        (startListening dayRender startSucceeds StopOutcome.rejects
          (mounted true []))).feedbackMessage = "No audio detected" ∧
      (stopListening recordingDayRender (StopOutcome.uri none) id
        (startListening dayRender startSucceeds StopOutcome.rejects
          (mounted true []))).recording = none ∧
      (stopListening recordingDayRender (StopOutcome.uri none) id
        (startListening dayRender startSucceeds StopOutcome.rejects
          (mounted true []))).isListening = false :=
  have h := stopListening_no_audio recordingDayRender none id
    (startListening dayRender startSucceeds StopOutcome.rejects (mounted true [])) 0
    (by decide) (Or.inl rfl) (Or.inl rfl)
  ⟨by decide, h.1, h.2.1, h.2.2.1⟩

/-- C14: with an empty recording reference `stopListening` returns at once.
The state after an awaited call is the state before it, timers included; in
general the call adds nothing to what its caller does meanwhile. -/
theorem stopListening_without_session (r : Render) (o : StopOutcome)
    (during : AppState → AppState) (s : AppState) (hnone : s.recording = none) :
    stopListening r o id s = s ∧ stopListening r o during s = during s := by
  simp [stopListening, hnone]

/-- C14, at the freshly mounted app. -/
theorem stopListening_without_session_witness :
    (mounted true []).recording = none ∧
      stopListening dayRender (StopOutcome.uri (some "file:///capture.m4a")) id
        (mounted true []) = mounted true [] :=
  ⟨by decide,
    (stopListening_without_session dayRender (StopOutcome.uri (some "file:///capture.m4a"))
      id (mounted true []) (by decide)).1⟩

/-! ## Feedback messages -/

/-- C17: the switch is pressed at 0 ms and again at 2000 ms.  At 3000 ms the
clearing timer of the first message fires and empties the feedback, although
the second message was set only 1000 ms before and its own timer, due at
5000 ms, is still pending. -/
theorem older_timer_clears_newer_feedback :
    (run asciiLower (mounted true []) twoFeedbacks).feedbackMessage =
        "Switching to day mode" ∧
      (run asciiLower (mounted true []) twoFeedbacks).now = 3000 ∧
      (run asciiLower (mounted true []) twoFeedbacks).timers =
        [ { due := 3000, callback := Callback.clearFeedback },
          { due := 5000, callback := Callback.clearFeedback } ] ∧
      (step asciiLower (run asciiLower (mounted true []) twoFeedbacks)
        (Event.timerFires 0 0 true StopOutcome.rejects)).feedbackMessage = "" ∧
      (step asciiLower (run asciiLower (mounted true []) twoFeedbacks)
        (Event.timerFires 0 0 true StopOutcome.rejects)).timers =
          [ { due := 5000, callback := Callback.clearFeedback } ] := by
  decide

/-! ## The store and the mode -/

/-- After `loadNightModeSettings` with a successful read the store and the
mode agree. -/
theorem loadNightModeSettings_storeMatchesMode (s : AppState) :
    storeMatchesMode (loadNightModeSettings true s) := by
  simp [storeMatchesMode, loadNightModeSettings, setIsLoading, setIsNightMode]

/-- A mode request whose write succeeds keeps the store and the mode in
agreement, whatever render it runs in. -/
theorem applyModeCall_storeMatchesMode (toLowerCase : String → String) (s : AppState)
    (call : ModeCall) (h : storeMatchesMode s) :
    storeMatchesMode (applyModeCall toLowerCase s call) := by
  cases call with
  | toggle r =>
    cases hr : r.isNightMode <;>
      simp [applyModeCall, storeMatchesMode, toggleNightMode, hr, getItem_setItem,
        booleanToString]
  | voice r command =>
    unfold storeMatchesMode at h
    cases hn : namesNight (toLowerCase command) <;>
      cases hd : namesDay (toLowerCase command) <;>
      cases hr : r.isNightMode <;>
      simp [applyModeCall, storeMatchesMode, processVoiceCommand, hn, hd, hr,
        getItem_setItem, booleanToString, h]

/-- Agreement of store and mode is kept along a sequence of mode requests. -/
theorem applyModeCalls_storeMatchesMode (toLowerCase : String → String)
    (calls : List ModeCall) (s : AppState) (h : storeMatchesMode s) :
    storeMatchesMode (applyModeCalls toLowerCase s calls) := by
  induction calls generalizing s with
  | nil => exact h
  | cons call rest ih =>
    exact ih (applyModeCall toLowerCase s call)
      (applyModeCall_storeMatchesMode toLowerCase s call h)

/-- The key holds nothing, "true" or "false". -/
theorem applyModeCall_storedValue (toLowerCase : String → String) (s : AppState)
    (call : ModeCall)
    (h : getItem NIGHT_MODE_STORAGE_KEY s.storage = none ∨
      getItem NIGHT_MODE_STORAGE_KEY s.storage = some "true" ∨
      getItem NIGHT_MODE_STORAGE_KEY s.storage = some "false") :
    getItem NIGHT_MODE_STORAGE_KEY (applyModeCall toLowerCase s call).storage = none ∨
      getItem NIGHT_MODE_STORAGE_KEY (applyModeCall toLowerCase s call).storage =
        some "true" ∨
      getItem NIGHT_MODE_STORAGE_KEY (applyModeCall toLowerCase s call).storage =
        some "false" := by
  cases call with
  | toggle r =>
    cases hr : r.isNightMode <;>
      simp [applyModeCall, toggleNightMode, hr, getItem_setItem, booleanToString]
  | voice r command =>
    cases hn : namesNight (toLowerCase command) <;>
      cases hd : namesDay (toLowerCase command) <;>
      cases hr : r.isNightMode <;>
      simp [applyModeCall, processVoiceCommand, hn, hd, hr, getItem_setItem,
        booleanToString, h]

/-- Along a sequence of mode requests the key holds nothing, "true" or
"false" if it did so at the start. -/
theorem applyModeCalls_storedValue (toLowerCase : String → String)
    (calls : List ModeCall) (s : AppState)
    (h : getItem NIGHT_MODE_STORAGE_KEY s.storage = none ∨
      getItem NIGHT_MODE_STORAGE_KEY s.storage = some "true" ∨
      getItem NIGHT_MODE_STORAGE_KEY s.storage = some "false") :
    getItem NIGHT_MODE_STORAGE_KEY (applyModeCalls toLowerCase s calls).storage = none ∨
      getItem NIGHT_MODE_STORAGE_KEY (applyModeCalls toLowerCase s calls).storage =
        some "true" ∨
      getItem NIGHT_MODE_STORAGE_KEY (applyModeCalls toLowerCase s calls).storage =
        some "false" := by
  induction calls generalizing s with
  | nil => exact h
  | cons call rest ih =>
    exact ih (applyModeCall toLowerCase s call)
      (applyModeCall_storedValue toLowerCase s call h)

/-- C20, as the claim words it, fails when the first read rejects: the store
holds "true", `loadNightModeSettings` falls back to DAY, and a load that
succeeds afterwards gives NIGHT, with no call in between and also after a
"day mode" command, which writes nothing. -/
theorem failed_first_read_breaks_store_agreement :
    (mounted false [(NIGHT_MODE_STORAGE_KEY, "true")]).isNightMode = false ∧
      (loadNightModeSettings true
        (mounted false [(NIGHT_MODE_STORAGE_KEY, "true")])).isNightMode = true ∧
      (applyModeCalls asciiLower (mounted false [(NIGHT_MODE_STORAGE_KEY, "true")])
        [ModeCall.voice dayRender "day mode"]).isNightMode = false ∧
      (applyModeCalls asciiLower (mounted false [(NIGHT_MODE_STORAGE_KEY, "true")])
        [ModeCall.voice dayRender "day mode"]).setItemCalls = [] ∧
      (loadNightModeSettings true
        (applyModeCalls asciiLower (mounted false [(NIGHT_MODE_STORAGE_KEY, "true")])
          [ModeCall.voice dayRender "day mode"])).isNightMode = true := by
  decide

/-- C20, amended: starting from a `loadNightModeSettings` whose read succeeded,
after every sequence of `toggleNightMode` and `processVoiceCommand` calls whose
writes succeed, a load that succeeds would give the current mode and the key
holds "true" exactly in NIGHT mode; when the key held nothing, "true" or
"false" at the start, it holds nothing or "false" exactly in DAY mode.  A
voice call that takes an "Already in
... mode" branch or the unrecognized branch writes nothing. -/
theorem store_agrees_with_mode_after_calls (toLowerCase : String → String)
    (store : List (String × String)) (calls : List ModeCall) :
    (loadNightModeSettings true
        (applyModeCalls toLowerCase (mounted true store) calls)).isNightMode =
          (applyModeCalls toLowerCase (mounted true store) calls).isNightMode ∧
      (getItem NIGHT_MODE_STORAGE_KEY
          (applyModeCalls toLowerCase (mounted true store) calls).storage = some "true" ↔
        (applyModeCalls toLowerCase (mounted true store) calls).isNightMode = true) ∧
      ((getItem NIGHT_MODE_STORAGE_KEY store = none ∨
          getItem NIGHT_MODE_STORAGE_KEY store = some "true" ∨
          getItem NIGHT_MODE_STORAGE_KEY store = some "false") →
        ((applyModeCalls toLowerCase (mounted true store) calls).isNightMode = false ↔
          (getItem NIGHT_MODE_STORAGE_KEY
              (applyModeCalls toLowerCase (mounted true store) calls).storage = none ∨
            getItem NIGHT_MODE_STORAGE_KEY
              (applyModeCalls toLowerCase (mounted true store) calls).storage =
                some "false"))) ∧
      (∀ (r : Render) (command : String) (s : AppState),
        (namesNight (toLowerCase command) = true ∧ r.isNightMode = true) ∨
          (namesNight (toLowerCase command) = false ∧
            namesDay (toLowerCase command) = true ∧ r.isNightMode = false) ∨
          (namesNight (toLowerCase command) = false ∧
            namesDay (toLowerCase command) = false) →
        (processVoiceCommand toLowerCase r true command s).setItemCalls = s.setItemCalls ∧
          (processVoiceCommand toLowerCase r true command s).storage = s.storage ∧
          (processVoiceCommand toLowerCase r true command s).isNightMode =
            s.isNightMode) := by
  have hinv := applyModeCalls_storeMatchesMode toLowerCase calls (mounted true store)
    (loadNightModeSettings_storeMatchesMode (initialState store))
  unfold storeMatchesMode at hinv
  refine ⟨?_, hinv, ?_, ?_⟩
  · cases hm : (applyModeCalls toLowerCase (mounted true store) calls).isNightMode
    · have hne : ¬ getItem NIGHT_MODE_STORAGE_KEY
          (applyModeCalls toLowerCase (mounted true store) calls).storage = some "true" := by
        intro hc
        have := hinv.1 hc
        simp [hm] at this
      simp [loadNightModeSettings, setIsLoading, setIsNightMode, hne]
    · have he := hinv.2 hm
      simp [loadNightModeSettings, setIsLoading, setIsNightMode, he]
  · intro hstore
    have hknown := applyModeCalls_storedValue toLowerCase calls (mounted true store) hstore
    cases hm : (applyModeCalls toLowerCase (mounted true store) calls).isNightMode
    · have hne : ¬ getItem NIGHT_MODE_STORAGE_KEY
          (applyModeCalls toLowerCase (mounted true store) calls).storage = some "true" := by
        intro hc
        have := hinv.1 hc
        simp [hm] at this
      rcases hknown with hk | hk | hk
      · simp [hk]
      · exact absurd hk hne
      · simp [hk]
    · have he := hinv.2 hm
      simp [he]
  · intro r command s hbranch
    rcases hbranch with ⟨hn, hr⟩ | ⟨hn, hd, hr⟩ | ⟨hn, hd⟩
    · simp [processVoiceCommand, hn, hr]
    · simp [processVoiceCommand, hn, hd, hr]
    · simp [processVoiceCommand, hn, hd]

/-- C20 amended, at a concrete sequence: from an empty store, a press of the
switch, a "night mode" command seen from a NIGHT render and a "day mode"
command leave DAY in the state and "false" in the store. -/
theorem store_agrees_with_mode_after_calls_witness :
    (applyModeCalls asciiLower (mounted true [])
        [ModeCall.toggle dayRender, ModeCall.voice nightRender "night mode",
          ModeCall.voice nightRender "day mode"]).isNightMode = false ∧
      getItem NIGHT_MODE_STORAGE_KEY
        (applyModeCalls asciiLower (mounted true [])
          [ModeCall.toggle dayRender, ModeCall.voice nightRender "night mode",
            ModeCall.voice nightRender "day mode"]).storage = some "false" ∧
      (loadNightModeSettings true
        (applyModeCalls asciiLower (mounted true [])
          [ModeCall.toggle dayRender, ModeCall.voice nightRender "night mode",
            ModeCall.voice nightRender "day mode"])).isNightMode =
        (applyModeCalls asciiLower (mounted true [])
          [ModeCall.toggle dayRender, ModeCall.voice nightRender "night mode",
            ModeCall.voice nightRender "day mode"]).isNightMode ∧
      (getItem NIGHT_MODE_STORAGE_KEY
          (applyModeCalls asciiLower (mounted true [])
            [ModeCall.toggle dayRender, ModeCall.voice nightRender "night mode",
              ModeCall.voice nightRender "day mode"]).storage = none ∨
        getItem NIGHT_MODE_STORAGE_KEY
          (applyModeCalls asciiLower (mounted true [])
            [ModeCall.toggle dayRender, ModeCall.voice nightRender "night mode",
              ModeCall.voice nightRender "day mode"]).storage = some "false") ∧
      (processVoiceCommand asciiLower nightRender true "night mode"
        (mounted true [])).setItemCalls = (mounted true []).setItemCalls :=
  have h := store_agrees_with_mode_after_calls asciiLower []
    [ModeCall.toggle dayRender, ModeCall.voice nightRender "night mode",
      ModeCall.voice nightRender "day mode"]
  ⟨by decide, by decide, h.1, (h.2.2.1 (Or.inl rfl)).1 (by decide),
    (h.2.2.2 nightRender "night mode" (mounted true []) (Or.inl ⟨by decide, rfl⟩)).1⟩

/-! ## The transition sequence -/

/-- C15: a mode change from the idle DAY scene.  When the render mounts the
moon subtree the celestial opacity is 1 and nothing animates it; the fade-out
starts after that render, from 1.  When the opacity reaches 0, at 300 ms, the
mounted subtree is the same as just before: the swap came first, the fade-out
second. -/
theorem render_swaps_before_fade_out :
    idleDayScene.isNightMode = false ∧
      idleDayScene.celestialOpacity = { value := 1, tween := none } ∧
      (commitRender true idleDayScene).isNightMode = true ∧
      (commitRender true idleDayScene).celestialOpacity = { value := 1, tween := none } ∧
      (changeMode true idleDayScene).celestialOpacity =
        { value := 1, tween := some { toValue := 0, endsAt := 1100 } } ∧
      (advanceTo 1099 (changeMode true idleDayScene)).isNightMode = true ∧
      (advanceTo 1100 (changeMode true idleDayScene)).isNightMode = true ∧
      (advanceTo 1100 (changeMode true idleDayScene)).celestialOpacity =
        { value := 0, tween := some { toValue := 1, endsAt := 1600 } } := by
  refine ⟨rfl, ?_, rfl, ?_, ?_, rfl, rfl, ?_⟩ <;>
    simp [idleDayScene, changeMode, commitRender, transitionEffect, advanceTo,
      fadeInCallback, Scene.settle, AnimatedValue.settle, AnimatedValue.timing, initialScene]
/-- C16: one transition sequence started on an idle scene and left alone.
Before both 300 ms timings have ended (celestial opacity to 0, plants opacity
to its target) no timing runs on the switch and the celestial opacity is still
on its way to 0.  At 300 ms both have ended and the second phase starts: the
switch timing of 300 ms and the celestial timing from 0 to 1 of 500 ms.  From
800 ms on nothing runs, the celestial opacity is 1, background and switch are 1
for NIGHT and 0 for DAY, the plants opacity is 0 for NIGHT and 1 for DAY. -/
theorem transition_sequence_joins_then_settles (isNightMode : Bool) (sc : Scene)
    (hidle : sc.idle) :
    (∀ t : Nat, sc.now ≤ t → t < sc.now + 300 →
        (advanceTo t (changeMode isNightMode sc)).switchAnim.tween = none ∧
        (advanceTo t (changeMode isNightMode sc)).celestialOpacity.tween =
          some { toValue := 0, endsAt := sc.now + 300 } ∧
        (advanceTo t (changeMode isNightMode sc)).plantsOpacity.tween =
          some { toValue := if isNightMode then 0 else 1, endsAt := sc.now + 300 }) ∧
      ((advanceTo (sc.now + 300) (changeMode isNightMode sc)).celestialOpacity =
          { value := 0, tween := some { toValue := 1, endsAt := sc.now + 300 + 500 } } ∧
        (advanceTo (sc.now + 300) (changeMode isNightMode sc)).plantsOpacity =
          { value := if isNightMode then 0 else 1, tween := none } ∧
        (advanceTo (sc.now + 300) (changeMode isNightMode sc)).switchAnim.tween =
          some { toValue := if isNightMode then 1 else 0, endsAt := sc.now + 300 + 300 }) ∧
      (∀ t : Nat, sc.now + 800 ≤ t →
        (advanceTo t (changeMode isNightMode sc)).celestialOpacity =
          { value := 1, tween := none } ∧
        (advanceTo t (changeMode isNightMode sc)).bgAnim =
          { value := if isNightMode then 1 else 0, tween := none } ∧
        (advanceTo t (changeMode isNightMode sc)).switchAnim =
          { value := if isNightMode then 1 else 0, tween := none } ∧
        (advanceTo t (changeMode isNightMode sc)).plantsOpacity =
          { value := if isNightMode then 0 else 1, tween := none } ∧
        (advanceTo t (changeMode isNightMode sc)).fadeOut = none) := by
  obtain ⟨hsw, _, _, _, _⟩ := hidle
  refine ⟨?_, ?_, ?_⟩
  · intro t _ hlt
    have h1 : ¬ sc.now + 300 ≤ t := by omega
    simp [advanceTo, changeMode, commitRender, transitionEffect, Scene.settle,
      AnimatedValue.settle, AnimatedValue.timing, h1, hsw]
  · simp [advanceTo, changeMode, commitRender, transitionEffect, fadeInCallback,
      Scene.settle, AnimatedValue.settle, AnimatedValue.timing, hsw]
  · intro t ht
    have h1 : sc.now + 300 ≤ t := by omega
    have h2 : sc.now + 600 ≤ t := by omega
    have h3 : sc.now + 300 + 300 ≤ t := by omega
    have h4 : sc.now + 300 + 500 ≤ t := by omega
    simp [advanceTo, changeMode, commitRender, transitionEffect, fadeInCallback,
      Scene.settle, AnimatedValue.settle, AnimatedValue.timing, h1, h2, h3, h4]

/-- C16, at the first NIGHT transition of an app that mounted in DAY mode. -/
theorem transition_sequence_joins_then_settles_witness :
    idleDayScene.idle ∧
      (advanceTo 1000 (changeMode true idleDayScene)).switchAnim.tween = none ∧
      (advanceTo 1100 (changeMode true idleDayScene)).celestialOpacity =
        { value := 0, tween := some { toValue := 1, endsAt := 800 + 300 + 500 } } ∧
      (advanceTo 1600 (changeMode true idleDayScene)).celestialOpacity =
        { value := 1, tween := none } ∧
      (advanceTo 1600 (changeMode true idleDayScene)).bgAnim =
        { value := 1, tween := none } ∧
      (advanceTo 1600 (changeMode true idleDayScene)).switchAnim =
        { value := 1, tween := none } ∧
      (advanceTo 1600 (changeMode true idleDayScene)).plantsOpacity =
        { value := 0, tween := none } :=
  have hidle : idleDayScene.idle := by
    simp [Scene.idle, idleDayScene, changeMode, commitRender, transitionEffect, advanceTo,
      fadeInCallback, Scene.settle, AnimatedValue.settle, AnimatedValue.timing, initialScene]
  have h := transition_sequence_joins_then_settles true idleDayScene hidle
  ⟨hidle, (h.1 1000 (by decide) (by decide)).1, h.2.1.1,
    (h.2.2 1600 (by decide)).1, (h.2.2 1600 (by decide)).2.1,
    (h.2.2 1600 (by decide)).2.2.1, (h.2.2 1600 (by decide)).2.2.2.1⟩

/-! ## Snowfall and pulses -/

/-- Replacing an element by one with the same number keeps the numbers. -/
theorem set_keeps_values (anims : List LoopValue) (index : Nat) (anim : LoopValue)
    (run : Option LoopRun) (h : anims.get? index = some anim) :
    (anims.set index { value := anim.value, running := run }).map LoopValue.value =
      anims.map LoopValue.value := by
  induction anims generalizing index with
  | nil => simp
  | cons a rest ih =>
    cases index with
    | zero =>
      simp only [List.get?_cons_zero, Option.some.injEq] at h
      subst h
      simp
    | succ k =>
      simp only [List.get?_cons_succ] at h
      simp [ih k h]

section TwinkleProjections

variable (isActive : Bool) (index : Nat) (s : SnowfallState)

@[simp] theorem startTwinkleAnimation_snowflakes :
    (startTwinkleAnimation isActive index s).snowflakes = s.snowflakes := by
  unfold startTwinkleAnimation
  split <;> rfl

@[simp] theorem startTwinkleAnimation_animations :
    (startTwinkleAnimation isActive index s).animations = s.animations := by
  unfold startTwinkleAnimation
  split <;> rfl

@[simp] theorem startTwinkleAnimation_isActive :
    (startTwinkleAnimation isActive index s).isActive = s.isActive := by
  unfold startTwinkleAnimation
  split <;> rfl

@[simp] theorem startTwinkleAnimation_now :
    (startTwinkleAnimation isActive index s).now = s.now := by
  unfold startTwinkleAnimation
  split <;> rfl

@[simp] theorem startTwinkleAnimation_stars :
    (startTwinkleAnimation isActive index s).stars = s.stars := by
  unfold startTwinkleAnimation
  split <;> rfl

@[simp] theorem startTwinkleAnimation_startTimers :
    (startTwinkleAnimation isActive index s).startTimers = s.startTimers := by
  unfold startTwinkleAnimation
  split <;> rfl

@[simp] theorem startTwinkleAnimation_values :
    (startTwinkleAnimation isActive index s).twinkleAnimations.map LoopValue.value =
      s.twinkleAnimations.map LoopValue.value := by
  unfold startTwinkleAnimation
  split
  · next star anim hstar hanim => exact set_keeps_values _ _ _ _ hanim
  · rfl

end TwinkleProjections

@[simp] theorem startTwinkles_snowflakes (isActive : Bool) (stars : List Star) (index : Nat)
    (s : SnowfallState) :
    (startTwinkles isActive index stars s).snowflakes = s.snowflakes := by
  induction stars generalizing index s with
  | nil => rfl
  | cons star rest ih =>
    simp only [startTwinkles, ih]
    split <;> simp

@[simp] theorem startTwinkles_animations (isActive : Bool) (stars : List Star) (index : Nat)
    (s : SnowfallState) :
    (startTwinkles isActive index stars s).animations = s.animations := by
  induction stars generalizing index s with
  | nil => rfl
  | cons star rest ih =>
    simp only [startTwinkles, ih]
    split <;> simp

@[simp] theorem startTwinkles_isActive (isActive : Bool) (stars : List Star) (index : Nat)
    (s : SnowfallState) :
    (startTwinkles isActive index stars s).isActive = s.isActive := by
  induction stars generalizing index s with
  | nil => rfl
  | cons star rest ih =>
    simp only [startTwinkles, ih]
    split <;> simp

@[simp] theorem startTwinkles_startTimers (isActive : Bool) (stars : List Star) (index : Nat)
    (s : SnowfallState) :
    (startTwinkles isActive index stars s).startTimers = s.startTimers := by
  induction stars generalizing index s with
  | nil => rfl
  | cons star rest ih =>
    simp only [startTwinkles, ih]
    split <;> simp

@[simp] theorem startTwinkles_values (isActive : Bool) (stars : List Star) (index : Nat)
    (s : SnowfallState) :
    (startTwinkles isActive index stars s).twinkleAnimations.map LoopValue.value =
      s.twinkleAnimations.map LoopValue.value := by
  induction stars generalizing index s with
  | nil => rfl
  | cons star rest ih =>
    simp only [startTwinkles, ih]
    split <;> simp


/-- C18: the effect is activated at 0 ms and deactivated at 1000 ms, while the
start timer of the snowflake (delay 3000 ms) is pending.  Deactivation resets
the value and leaves the timer armed.  At 3000 ms the timer fires and starts
the timing although `isActive` is false; when the timing ends, its callback,
which closes over the `isActive = true` of the activating render, resamples
`x`, `wind` and `wobble` of the snowflake and starts the timing again. -/
theorem start_timer_outlives_deactivation :
    (snowfallRun 400 (mountSnowfall false [sampleSnowflake] [])
        deactivatedBeforeStart).isActive = false ∧
      (snowfallRun 400 (mountSnowfall false [sampleSnowflake] [])
        deactivatedBeforeStart).animations = [{ value := 0, running := none }] ∧
      (snowfallRun 400 (mountSnowfall false [sampleSnowflake] [])
        deactivatedBeforeStart).startTimers =
          [{ due := 3000, index := 0, isActive := true }] ∧
      (snowfallRun 400 (mountSnowfall false [sampleSnowflake] [])
        (deactivatedBeforeStart ++ [SnowfallEvent.startTimerFires 0])).isActive = false ∧
      (snowfallRun 400 (mountSnowfall false [sampleSnowflake] [])
        (deactivatedBeforeStart ++ [SnowfallEvent.startTimerFires 0])).animations =
          [{ value := 0, running := some { endsAt := 11000, isActive := true } }] ∧
      (snowfallRun 400 (mountSnowfall false [sampleSnowflake] [])
        (deactivatedBeforeStart ++
          [SnowfallEvent.startTimerFires 0, SnowfallEvent.elapse 8000,
            SnowfallEvent.fallCompletes 0 (1 / 2) (1 / 4) (1 / 3)])).isActive = false ∧
      (snowfallRun 400 (mountSnowfall false [sampleSnowflake] [])
        (deactivatedBeforeStart ++
          [SnowfallEvent.startTimerFires 0, SnowfallEvent.elapse 8000,
            SnowfallEvent.fallCompletes 0 (1 / 2) (1 / 4) (1 / 3)])).snowflakes =
          [{ sampleSnowflake with x := 200, wind := -1, wobble := 1 }] ∧
      (snowfallRun 400 (mountSnowfall false [sampleSnowflake] [])
        (deactivatedBeforeStart ++
          [SnowfallEvent.startTimerFires 0, SnowfallEvent.elapse 8000,
            SnowfallEvent.fallCompletes 0 (1 / 2) (1 / 4) (1 / 3)])).animations =
          [{ value := 0, running := some { endsAt := 19000, isActive := true } }] := by
  refine ⟨?_, ?_, ?_, ?_, ?_, ?_, ?_, ?_⟩ <;>
    simp [snowfallRun, snowfallStep, deactivatedBeforeStart, mountSnowfall, setActive,
      snowfallEffect, snowfallCleanup, armStartTimers, startTwinkles,
      startSnowfallAnimation, snowfallCallback, sampleSnowflake] <;>
    norm_num

/-- C19, as the claim words it, fails for the parameters of a snowflake: after
one traversal `x`, `wind` and `wobble` are the resampled 200, -1 and 1, and a
deactivation followed by a reactivation leaves them so, while a first
activation has the 120, 1 and 2 the snowflake was created with. -/
theorem resampled_parameters_survive_reactivation :
    (snowfallRun 400 (mountSnowfall false [sampleSnowflake] [])
        [SnowfallEvent.setActive true]).snowflakes =
          [{ sampleSnowflake with x := 120, wind := 1, wobble := 2 }] ∧
      (snowfallRun 400 (mountSnowfall false [sampleSnowflake] [])
        (oneTraversal ++
          [SnowfallEvent.setActive false, SnowfallEvent.setActive true])).snowflakes =
          [{ sampleSnowflake with x := 200, wind := -1, wobble := 1 }] ∧
      (120 : ℚ) ≠ 200 := by
  refine ⟨?_, ?_, by norm_num⟩
  · simp [snowfallRun, snowfallStep, mountSnowfall, setActive, snowfallEffect,
      snowfallCleanup, startTwinkles, sampleSnowflake]
  · simp [snowfallRun, snowfallStep, oneTraversal, mountSnowfall, setActive,
      snowfallEffect, snowfallCleanup, armStartTimers, startTwinkles,
      startSnowfallAnimation, snowfallCallback, sampleSnowflake]
    norm_num

/-- A render with a changed prop runs the cleanup and then the effect. -/
theorem setActive_of_change (isActive : Bool) (s : SnowfallState)
    (hchange : s.isActive ≠ isActive) :
    setActive isActive s =
      snowfallEffect isActive (snowfallCleanup { s with isActive := isActive }) := by
  unfold setActive
  rw [if_neg (fun hc => hchange hc.symm)]

/-- C19, amended: deactivating the Snowfall animator sets every fall-progress
value to 0 and every twinkle opacity to 1 and stops what ran on them, and a
reactivation that follows at once starts from those numbers; the snowflakes
are the ones before the deactivation, their parameters are not reset.  The
sun effect in NIGHT mode sets the two sun values to 0.8 and 1, the microphone
effect sets its value to 1 when listening stops, and the loops started next
start from the numbers of a first activation. -/
theorem deactivation_resets_animated_values (s : SnowfallState) (p : Pulses)
    (hactive : s.isActive = true) :
    (∀ anim ∈ (setActive false s).animations, anim = { value := 0, running := none }) ∧
      (∀ anim ∈ (setActive false s).twinkleAnimations,
        anim = { value := 1, running := none }) ∧
      (setActive false s).snowflakes = s.snowflakes ∧
      (∀ anim ∈ (setActive true (setActive false s)).animations,
        anim = { value := 0, running := none }) ∧
      (∀ v ∈ (setActive true (setActive false s)).twinkleAnimations.map LoopValue.value,
        v = 1) ∧
      (setActive true (setActive false s)).snowflakes = s.snowflakes ∧
      (sunPulseEffect true p).sunRaysPulse = { value := 0.8, loop := none } ∧
      (sunPulseEffect true p).sunScaleAnim = { value := 1, loop := none } ∧
      (micPulseEffect false p).micPulse = { value := 1, loop := none } ∧
      (sunPulseEffect false (sunPulseEffect true p)).sunRaysPulse =
        (sunPulseEffect false initialPulses).sunRaysPulse ∧
      (sunPulseEffect false (sunPulseEffect true p)).sunScaleAnim =
        (sunPulseEffect false initialPulses).sunScaleAnim ∧
      (micPulseEffect true (micPulseEffect false p)).micPulse =
        (micPulseEffect true initialPulses).micPulse := by
  have hoff : setActive false s =
      snowfallEffect false (snowfallCleanup { s with isActive := false }) :=
    setActive_of_change false s (by simp [hactive])
  have hoffActive : (setActive false s).isActive = false := by
    rw [hoff]; rfl
  have hon : setActive true (setActive false s) =
      snowfallEffect true
        (snowfallCleanup { (setActive false s) with isActive := true }) :=
    setActive_of_change true (setActive false s) (by simp [hoffActive])
  have h1 : ∀ anim ∈ (setActive false s).animations,
      anim = { value := 0, running := none } := by
    intro anim hmem
    rw [hoff] at hmem
    simp [snowfallEffect, snowfallCleanup] at hmem
    exact hmem.2.symm
  have h2 : ∀ anim ∈ (setActive false s).twinkleAnimations,
      anim = { value := 1, running := none } := by
    intro anim hmem
    rw [hoff] at hmem
    simp [snowfallEffect, snowfallCleanup] at hmem
    exact hmem.2.symm
  have h3 : (setActive false s).snowflakes = s.snowflakes := by
    rw [hoff]; rfl
  refine ⟨h1, h2, h3, ?_, ?_, ?_, rfl, rfl, rfl, rfl, rfl, rfl⟩
  · intro anim hmem
    rw [hon] at hmem
    simp only [snowfallEffect, if_true, startTwinkles_animations, snowfallCleanup,
      List.mem_map] at hmem
    obtain ⟨a, ha, rfl⟩ := hmem
    rw [h1 a ha]
  · intro v hv
    rw [hon] at hv
    simp only [snowfallEffect, if_true, startTwinkles_values, snowfallCleanup,
      List.map_map, List.mem_map, Function.comp] at hv
    obtain ⟨a, ha, rfl⟩ := hv
    rw [h2 a ha]
  · rw [hon]
    simp [snowfallEffect, snowfallCleanup, h3]

/-- C19 amended, at a Snowfall mounted active with one snowflake and one
twinkling star, and at pulses whose three loops run. -/
theorem deactivation_resets_animated_values_witness :
    (mountSnowfall true [sampleSnowflake] [sampleStar]).isActive = true ∧
      (setActive false (mountSnowfall true [sampleSnowflake] [sampleStar])).snowflakes =
        (mountSnowfall true [sampleSnowflake] [sampleStar]).snowflakes ∧
      (setActive true
        (setActive false (mountSnowfall true [sampleSnowflake] [sampleStar]))).snowflakes =
        (mountSnowfall true [sampleSnowflake] [sampleStar]).snowflakes ∧
      (sunPulseEffect true runningPulses).sunRaysPulse = { value := 0.8, loop := none } ∧
      (sunPulseEffect true runningPulses).sunScaleAnim = { value := 1, loop := none } ∧
      (micPulseEffect false runningPulses).micPulse = { value := 1, loop := none } :=
  have hactive : (mountSnowfall true [sampleSnowflake] [sampleStar]).isActive = true := by
    simp [mountSnowfall, snowfallEffect]
  have h := deactivation_resets_animated_values
    (mountSnowfall true [sampleSnowflake] [sampleStar]) runningPulses hactive
  ⟨hactive, h.2.2.1, h.2.2.2.2.2.1, h.2.2.2.2.2.2.1, h.2.2.2.2.2.2.2.1,
    h.2.2.2.2.2.2.2.2.1⟩

end ThemeToggle
